import Mathlib

/-!
Shallow embedding of the ResearchAgent repository (src/bot.py, src/news.py).

The repository is a single-pass research pipeline: a search client that
normalizes heterogeneous agent responses (bot.py, `search_with_agent`),
a content-idea generator that positionally parses generated text into
social-media posts (bot.py, `generate_content_ideas` and the Instagram
re-parse inside the Streamlit handler), a news aggregator
(news.py, `fetch_trending_articles`; bot.py, `fetch_news_articles`),
and the Streamlit "Start Research" handler that orchestrates them.

External effects are made explicit: the agent run is an input of type
`Except String ...` (`Except.error` models a raised exception), messages
shown via `st.error` are collected in an `errors` field, Python
`IndexError` during parsing is modelled by `Option` (`none` means the
access raised), and the news HTTP boundary is a function argument from
query keyword to response.
-/

namespace ResearchAgent

/-! ### Python string primitives

Python `str.split(sep)` and `str.strip()` re-implemented as structural
recursions so that every definition below evaluates inside the kernel.
The source only splits on the separators `"\n"` and `"\n\n"`. -/

/-- Accumulator-based splitter for a one-character separator; models Python
`s.split(c)`: every occurrence of the separator cuts, adjacent separators
yield empty pieces, and the result is never the empty list. -/
def splitCharAux (c : Char) : List Char → List Char → List (List Char)
  | acc, [] => [acc.reverse]
  | acc, x :: xs =>
    if x = c then acc.reverse :: splitCharAux c [] xs
    else splitCharAux c (x :: acc) xs

/-- Accumulator-based splitter for the two-character separator `"\n\n"`;
models Python `s.split("\n\n")`: leftmost, non-overlapping matches cut the
string, exactly as CPython scans. -/
def splitBlankAux : List Char → List Char → List (List Char)
  | acc, '\n' :: '\n' :: rest => acc.reverse :: splitBlankAux [] rest
  | acc, x :: xs => splitBlankAux (x :: acc) xs
  | acc, [] => [acc.reverse]

/-- Python `s.split("\n")` (bot.py lines 116, 168, 230). -/
def splitLines (s : String) : List String :=
  (splitCharAux '\n' [] s.data).map String.mk

/-- Python `s.split("\n\n")` (bot.py lines 115, 229). -/
def splitBlocks (s : String) : List String :=
  (splitBlankAux [] s.data).map String.mk

/-- Python `s.strip()`: drop whitespace from both ends (bot.py lines 145, 168). -/
def pyStrip (s : String) : String :=
  String.mk (((s.data.dropWhile Char.isWhitespace).reverse.dropWhile
    Char.isWhitespace).reverse)

/-- Bool substring helper: `pat` begins the list `xs`. -/
def leadsWith : List Char → List Char → Bool
  | [], _ => true
  | _ :: _, [] => false
  | p :: ps, x :: xs => p == x && leadsWith ps xs

/-- Bool substring helper: `pat` occurs contiguously inside the haystack. -/
def charsContain (pat : List Char) : List Char → Bool
  | [] => leadsWith pat []
  | x :: rest => leadsWith pat (x :: rest) || charsContain pat rest

/-- Python `pat in s` for strings. -/
def strContains (s pat : String) : Bool :=
  charsContain pat.data s.data

/-! ### Search Client (bot.py, `search_with_agent`, lines 48-85) -/

/-- One result-like mapping in the agent response; `none` models a missing
key, matching Python `item.get(key, default)`. -/
structure RawItem where
  title? : Option String
  link? : Option String
  snippet? : Option String
deriving DecidableEq, Repr

/-- Normalized search record (spec section 3, SearchResult). -/
structure SearchResult where
  title : String
  link : String
  snippet : String
deriving DecidableEq, Repr

/-- The shape of `run.content` as discriminated by `search_with_agent`:
a plain string, a dict (whose `results` key may be absent), a list of
result-like mappings, or anything else. `stringified` carries the value of
Python `str(run.content)` for the branches that stringify the content. -/
inductive AgentContent where
  | str (s : String)
  | dict (results? : Option (List RawItem)) (stringified : String)
  | list (items : List RawItem)
  | other (stringified : String)
deriving DecidableEq, Repr

/-- Field defaulting of one result-like mapping, per
`item.get("title", "No title")`, `item.get("link", "")` and
`item.get("snippet", "")` (bot.py lines 63-65 and 71-73). -/
def normalizeItem (item : RawItem) : SearchResult :=
  { title := item.title?.getD "No title"
  , link := item.link?.getD ""
  , snippet := item.snippet?.getD "" }

/-- The branch cascade of `search_with_agent` on a successfully returned
`run.content` (bot.py lines 52-81). -/
def normalizeContent : AgentContent → List SearchResult
  | .str s => [{ title := "Search Result", link := "", snippet := s }]
  | .dict (some items) _ => items.map normalizeItem
  | .dict none stringified =>
      [{ title := "Search Result", link := "", snippet := stringified }]
  | .list items => items.map normalizeItem
  | .other stringified =>
      [{ title := "Search Result", link := "", snippet := stringified }]

/-- Output of the search client: the `st.error` messages it emitted plus
the returned list. -/
structure SearchOutput where
  errors : List String
  results : List SearchResult
deriving DecidableEq, Repr

/-- `search_with_agent` (bot.py lines 48-85). The agent run is an input:
`Except.error e` models `agent.run` raising an exception with message `e`;
the handler shows one `st.error` and returns `[]` (lines 83-85). -/
def search_with_agent (run : Except String AgentContent) : SearchOutput :=
  match run with
  | .error e => { errors := ["Search failed: " ++ e], results := [] }
  | .ok content => { errors := [], results := normalizeContent content }

/-! ### Content Idea Generator (bot.py, `generate_content_ideas`,
lines 87-140) and the Instagram re-parse (bot.py lines 229-238) -/

/-- Parsed idea (spec section 3, ContentIdea). -/
structure ContentIdea where
  title : String
  description : String
  key_points : List String
deriving DecidableEq, Repr

/-- Positional parse of one idea block (bot.py lines 116-121 and 230-233):
`lines = idea.split("\n")`, then `title = lines[0]`,
`description = lines[1]`, key points `lines[2:5]`. Fewer than two lines
makes `lines[1]` raise `IndexError`, modelled as `none`; the slice
`lines[2:5]` never raises. -/
def parseIdeaBlock (idea : String) : Option ContentIdea :=
  match splitLines idea with
  | title :: description :: rest =>
      some { title := title, description := description
           , key_points := rest.take 3 }
  | _ => none

/-- LinkedIn template (bot.py lines 124-130). -/
def formatLinkedInPost (title description key_points : String) : String :=
  let hook_line := "🚀 *" ++ title ++ "* - Grab attention with this hook!"
  let interest_peak := "🔍 Let\x27s dive deeper into this topic!"
  let body := description ++ "\n\n*Key Points to Cover:*\n" ++ key_points ++
    "\n\nThis is where you expand on the idea and provide valuable insights."
  let cta := "👉 What are your thoughts? Share in the comments!"
  let hashtags := "#ContentIdeas #LinkedIn #Engagement"
  hook_line ++ "\n\n" ++ interest_peak ++ "\n\n" ++ body ++ "\n\n" ++ cta ++
    "\n\n" ++ hashtags

/-- Facebook template (bot.py line 134). -/
def formatFacebookPost (title description key_points : String) : String :=
  "🌟 *" ++ title ++ "*\n\n" ++ description ++ "\n\n*Key Points:*\n" ++
    key_points ++
    "\n\n💬 We want to hear from you! What do you think about this topic? Share your thoughts in the comments below!\n\n#Facebook #Community #Engagement"

/-- Instagram template (bot.py line 236). -/
def formatInstagramPost (title description key_points : String) : String :=
  "✨ *" ++ title ++ "*\n\n" ++ description ++ "\n\n*Key Highlights:*\n" ++
    key_points ++
    "\n\n📸 Don\x27t forget to tag us in your posts! #Instagram #ContentIdeas #Inspiration"

/-- The LinkedIn/Facebook loop body of `generate_content_ideas`
(bot.py lines 115-135): parse each block positionally, join the key points
with newlines, append one post per platform per block. A parse failure in
any block is the `IndexError` propagating out of the loop, so the whole
traversal is `none`. -/
def makePosts : List String → Option (List String × List String)
  | [] => some ([], [])
  | block :: rest => do
    let idea ← parseIdeaBlock block
    let kp := "\n".intercalate idea.key_points
    let (ls, fs) ← makePosts rest
    pure (formatLinkedInPost idea.title idea.description kp :: ls,
          formatFacebookPost idea.title idea.description kp :: fs)

/-- Result of `generate_content_ideas`: the `st.error` messages emitted
plus the returned triple. -/
structure GenResult where
  errors : List String
  content_ideas : String
  linkedin_posts : List String
  facebook_posts : List String
deriving DecidableEq, Repr

/-- `generate_content_ideas` (bot.py lines 87-140). The generative run is
an input: `Except.error e` models `content_agent.run` raising. The whole
body sits in one `try`, so both a raised run and an `IndexError` inside
the parsing loop reach the same handler, which shows one `st.error` and
returns `("Failed to generate content ideas.", [], [])` (lines 138-140). -/
def generate_content_ideas (run : Except String String) : GenResult :=
  match run with
  | .error e =>
      { errors := ["Content generation failed: " ++ e]
      , content_ideas := "Failed to generate content ideas."
      , linkedin_posts := [], facebook_posts := [] }
  | .ok content_ideas =>
      match makePosts (splitBlocks content_ideas) with
      | some (linkedin_posts, facebook_posts) =>
          { errors := [], content_ideas := content_ideas
          , linkedin_posts := linkedin_posts
          , facebook_posts := facebook_posts }
      | none =>
          { errors := ["Content generation failed: list index out of range"]
          , content_ideas := "Failed to generate content ideas."
          , linkedin_posts := [], facebook_posts := [] }

/-- The Instagram pass inside the Streamlit handler (bot.py lines 229-236):
an independent re-parse of the returned `content_ideas` text with the same
positional scheme, but outside any `try`, so an `IndexError` (`none`)
escapes uncaught. -/
def makeInstagramPosts : List String → Option (List String)
  | [] => some []
  | block :: rest => do
    let idea ← parseIdeaBlock block
    let kp := "\n".intercalate idea.key_points
    let ps ← makeInstagramPosts rest
    pure (formatInstagramPost idea.title idea.description kp :: ps)

/-- The whole Instagram tab pass over the generated text (bot.py
lines 229-238). -/
def instagram_tab_posts (content_ideas : String) : Option (List String) :=
  makeInstagramPosts (splitBlocks content_ideas)

/-- A step of content generation fails: either the generative run raised,
or the returned text makes the parsing loop raise an `IndexError`. -/
def generationStepFails (run : Except String String) : Prop :=
  match run with
  | .error _ => True
  | .ok content_ideas => makePosts (splitBlocks content_ideas) = none

instance : DecidablePred generationStepFails := by
  intro run
  cases run with
  | error e => exact isTrue trivial
  | ok c => exact inferInstanceAs (Decidable (_ = _))

/-! ### News Aggregator (news.py, `fetch_trending_articles`;
bot.py, `fetch_news_articles`, lines 142-146) -/

/-- Article object from the news provider (spec section 3, NewsArticle). -/
structure NewsArticle where
  title : String
  description : String
  source_name : String
  publishedAt : String
  url : String
deriving DecidableEq, Repr

/-- One HTTP response from the news provider: `status_code`, and the value
of `data.get("articles", [])` when the body is read. -/
structure NewsResponse where
  status_code : Nat
  articles : List NewsArticle
deriving DecidableEq, Repr

/-- `fetch_trending_articles` (news.py lines 5-25). `provider q` models
`requests.get(url, params)` with `q` the keyword and the remaining params
(sortBy, apiKey, language, pageSize) fixed. A 200 response extends the
accumulator with its articles; any other status only prints and the
keyword contributes nothing. -/
def fetch_trending_articles (provider : String → NewsResponse) :
    List String → List NewsArticle
  | [] => []
  | keyword :: rest =>
    (if (provider keyword).status_code = 200
     then (provider keyword).articles else []) ++
      fetch_trending_articles provider rest

/-- `fetch_news_articles` (bot.py lines 142-146): per keyword, call
`fetch_trending_articles` on the singleton `[keyword.strip()]` and extend. -/
def fetch_news_articles (provider : String → NewsResponse) :
    List String → List NewsArticle
  | [] => []
  | keyword :: rest =>
    fetch_trending_articles provider [pyStrip keyword] ++
      fetch_news_articles provider rest

/-- Articles attributable to one submitted keyword: what its single
provider call contributes. -/
def perKeywordArticles (provider : String → NewsResponse) (keyword : String) :
    List NewsArticle :=
  if (provider (pyStrip keyword)).status_code = 200
  then (provider (pyStrip keyword)).articles else []

/-! ### Start Research handler (bot.py lines 166-289) -/

/-- Keyword parsing of the raw text area, per
`[k.strip() for k in keywords_input.split("\n") if k.strip()]`
(bot.py line 168). -/
def parse_keywords (keywords_input : String) : List String :=
  ((splitLines keywords_input).filter (fun k => pyStrip k ≠ "")).map pyStrip

/-- Trace of one press of the Start Research button: validation errors
shown, and the provider invocations each stage performs (search agent runs,
generative runs, news HTTP requests), in order. -/
structure ResearchTrace where
  validation_errors : List String
  search_calls : List String
  generate_calls : List (List String)
  news_calls : List String
deriving DecidableEq, Repr

/-- The Start Research handler (bot.py lines 166-289) as a trace of
provider calls. `if keywords_input:` is Python string truthiness, i.e. the
raw text is non-empty; only then does the pipeline run: one search-agent
run per parsed keyword (lines 176-179), exactly one generative run over
the whole parsed list (line 206) even when that list is empty, and one
news request per parsed keyword (lines 142-146, 267). The empty raw input
falls to `st.error("Please enter at least one keyword")` (line 289). -/
def start_research (keywords_input : String) : ResearchTrace :=
  if keywords_input ≠ "" then
    let keywords := parse_keywords keywords_input
    { validation_errors := []
    , search_calls := keywords
    , generate_calls := [keywords]
    , news_calls := keywords.map pyStrip }
  else
    { validation_errors := ["Please enter at least one keyword"]
    , search_calls := [], generate_calls := [], news_calls := [] }

/-! ### Concrete fixtures used to instantiate the theorems -/

/-- A concrete article with only the title filled in. -/
def demoArticle (t : String) : NewsArticle :=
  { title := t, description := "", source_name := "", publishedAt := ""
  , url := "" }

/-- A concrete news boundary: the query "alpha" succeeds with two
articles, every other query is rate-limited with HTTP 429 (whose unread
body would have held one article). -/
def demoProvider (q : String) : NewsResponse :=
  if q = "alpha" then
    { status_code := 200, articles := [demoArticle "A1", demoArticle "A2"] }
  else
    { status_code := 429, articles := [demoArticle "B1"] }

/-! ### Helper lemmas -/

/-- An idea block whose line split has fewer than two lines fails the
positional parse: `lines[1]` is out of range. -/
theorem parseIdeaBlock_none_of_short (idea : String)
    (h : (splitLines idea).length < 2) : parseIdeaBlock idea = none := by
  unfold parseIdeaBlock
  cases hs : splitLines idea with
  | nil => rfl
  | cons a t =>
    cases t with
    | nil => rfl
    | cons b t' =>
      rw [hs] at h
      simp only [List.length_cons] at h
      omega

/-- One failing block makes the whole LinkedIn/Facebook loop raise. -/
theorem makePosts_none_of_mem (blocks : List String) (b : String)
    (hb : b ∈ blocks) (hp : parseIdeaBlock b = none) :
    makePosts blocks = none := by
  induction blocks with
  | nil => cases hb
  | cons x rest ih =>
    rcases List.mem_cons.mp hb with h | h
    · subst h
      simp [makePosts, hp]
    · cases hx : parseIdeaBlock x with
      | none => simp [makePosts, hx]
      | some idea => simp [makePosts, hx, ih h]

/-- One failing block makes the whole Instagram loop raise. -/
theorem makeInstagramPosts_none_of_mem (blocks : List String) (b : String)
    (hb : b ∈ blocks) (hp : parseIdeaBlock b = none) :
    makeInstagramPosts blocks = none := by
  induction blocks with
  | nil => cases hb
  | cons x rest ih =>
    rcases List.mem_cons.mp hb with h | h
    · subst h
      simp [makeInstagramPosts, hp]
    · cases hx : parseIdeaBlock x with
      | none => simp [makeInstagramPosts, hx]
      | some idea => simp [makeInstagramPosts, hx, ih h]

/-- The aggregated news list is the concatenation, in keyword order, of
each keyword's own contribution. -/
theorem fetch_news_eq_flatten (provider : String → NewsResponse)
    (keywords : List String) :
    fetch_news_articles provider keywords =
      (keywords.map (perKeywordArticles provider)).flatten := by
  induction keywords with
  | nil => rfl
  | cons k rest ih =>
    simp [fetch_news_articles, fetch_trending_articles, perKeywordArticles,
      ih]

/-! ### Claim theorems -/

/-- C1 (counterexample): at the concrete string response "hello" the
string branch of `search_with_agent` returns one result whose title is
"Search Result", not the empty title the claim asserts. -/
theorem string_branch_spec_counterexample :
    (search_with_agent (Except.ok (AgentContent.str "hello"))).results =
      [{ title := "Search Result", link := "", snippet := "hello" }] ∧
    (search_with_agent (Except.ok (AgentContent.str "hello"))).results ≠
      [{ title := "", link := "", snippet := "hello" }] := by
  decide

/-- C1 (amended): for every agent response whose content is a plain
string, the search client returns exactly one SearchResult whose title is
"Search Result", whose link is the empty string, and whose snippet is the
full response string, with no error reported. -/
theorem string_branch_result (s : String) :
    search_with_agent (Except.ok (AgentContent.str s)) =
      { errors := []
      , results := [{ title := "Search Result", link := "", snippet := s }] } :=
  rfl

/-- C2: for every keyword list of length at least 1, the news aggregator
output is the concatenation, in keyword-submission order, of per-keyword
article lists; its length is the sum of per-keyword counts; and any
keyword whose provider call returns a non-200 status contributes the empty
list, leaving the other keywords' contributions untouched. Totality of
`fetch_news_articles` models that the call does not raise. -/
theorem news_aggregator_concat (provider : String → NewsResponse)
    (keywords : List String) (h : 1 ≤ keywords.length) :
    fetch_news_articles provider keywords =
      (keywords.map (perKeywordArticles provider)).flatten ∧
    (fetch_news_articles provider keywords).length =
      (keywords.map (fun k => (perKeywordArticles provider k).length)).sum ∧
    ∀ k, (provider (pyStrip k)).status_code ≠ 200 →
      perKeywordArticles provider k = [] := by
  refine ⟨fetch_news_eq_flatten provider keywords, ?_, ?_⟩
  · rw [fetch_news_eq_flatten provider keywords]
    rw [List.length_flatten, List.map_map]
    rfl
  · intro k hk
    simp [perKeywordArticles, hk]

/-- C2 (witness): two keywords, the second rate-limited with HTTP 429;
the aggregate is exactly the successful keyword's two articles. -/
theorem news_aggregator_concat_witness :
    1 ≤ (["alpha", "beta"] : List String).length ∧
    (fetch_news_articles demoProvider ["alpha", "beta"] =
      ((["alpha", "beta"] : List String).map
        (perKeywordArticles demoProvider)).flatten ∧
    (fetch_news_articles demoProvider ["alpha", "beta"]).length =
      ((["alpha", "beta"] : List String).map
        (fun k => (perKeywordArticles demoProvider k).length)).sum ∧
    ∀ k, (demoProvider (pyStrip k)).status_code ≠ 200 →
      perKeywordArticles demoProvider k = []) :=
  ⟨by decide, news_aggregator_concat demoProvider ["alpha", "beta"] (by decide)⟩

/-- C3: every idea block whose line split has fewer than two lines makes
the fixed-position parser used for the LinkedIn/Facebook loop and for the
Instagram tab raise an IndexError (the `lines[1]` read is out of range),
modelled as `parseIdeaBlock` returning `none`. -/
theorem short_block_parse_fails (idea : String)
    (h : (splitLines idea).length < 2) : parseIdeaBlock idea = none :=
  parseIdeaBlock_none_of_short idea h

/-- C3 (witness): the one-line block "Short" has fewer than two lines and
its positional parse raises. -/
theorem short_block_parse_fails_witness :
    (splitLines "Short").length < 2 ∧ parseIdeaBlock "Short" = none :=
  ⟨by decide, short_block_parse_fails "Short" (by decide)⟩

/-- C4: whenever a step of content idea generation raises — the
generative run itself, or the parsing loop on its returned text — the
exception is caught, exactly one non-fatal error is reported, and the
function returns the failure placeholder string with two empty post
lists. -/
theorem generation_failure_placeholder (run : Except String String)
    (h : generationStepFails run) :
    (generate_content_ideas run).content_ideas =
      "Failed to generate content ideas." ∧
    (generate_content_ideas run).linkedin_posts = [] ∧
    (generate_content_ideas run).facebook_posts = [] ∧
    (generate_content_ideas run).errors.length = 1 := by
  cases run with
  | error e => exact ⟨rfl, rfl, rfl, rfl⟩
  | ok c =>
    have hc : makePosts (splitBlocks c) = none := h
    simp [generate_content_ideas, hc]

/-- C4 (witness): a successful run returning one single-line block fails
the parsing step, and the generator returns the placeholder triple. -/
theorem generation_failure_placeholder_witness :
    generationStepFails (Except.ok "Just one line") ∧
    ((generate_content_ideas (Except.ok "Just one line")).content_ideas =
      "Failed to generate content ideas." ∧
    (generate_content_ideas (Except.ok "Just one line")).linkedin_posts = [] ∧
    (generate_content_ideas (Except.ok "Just one line")).facebook_posts = [] ∧
    (generate_content_ideas (Except.ok "Just one line")).errors.length = 1) :=
  ⟨by decide, generation_failure_placeholder (Except.ok "Just one line")
    (by decide)⟩

/-- C5: the generated text "Title A\nDesc A\nPoint1\nPoint2\nPoint3" is a
single block parsing to title "Title A", description "Desc A" and the
three key points, and each derived LinkedIn, Facebook and Instagram post
contains "Title A" and all three key points as substrings. -/
theorem single_block_scenario :
    splitBlocks "Title A\nDesc A\nPoint1\nPoint2\nPoint3" =
      ["Title A\nDesc A\nPoint1\nPoint2\nPoint3"] ∧
    parseIdeaBlock "Title A\nDesc A\nPoint1\nPoint2\nPoint3" =
      some { title := "Title A", description := "Desc A"
           , key_points := ["Point1", "Point2", "Point3"] } ∧
    (generate_content_ideas
      (Except.ok "Title A\nDesc A\nPoint1\nPoint2\nPoint3")).linkedin_posts.length = 1 ∧
    (generate_content_ideas
      (Except.ok "Title A\nDesc A\nPoint1\nPoint2\nPoint3")).facebook_posts.length = 1 ∧
    (instagram_tab_posts
      "Title A\nDesc A\nPoint1\nPoint2\nPoint3").map List.length = some 1 ∧
    ((generate_content_ideas
      (Except.ok "Title A\nDesc A\nPoint1\nPoint2\nPoint3")).linkedin_posts.all
      fun p => ["Title A", "Point1", "Point2", "Point3"].all (strContains p)) = true ∧
    ((generate_content_ideas
      (Except.ok "Title A\nDesc A\nPoint1\nPoint2\nPoint3")).facebook_posts.all
      fun p => ["Title A", "Point1", "Point2", "Point3"].all (strContains p)) = true ∧
    (((instagram_tab_posts "Title A\nDesc A\nPoint1\nPoint2\nPoint3").getD []).all
      fun p => ["Title A", "Point1", "Point2", "Point3"].all (strContains p)) = true := by
  decide

/-- C6: for a mapping response carrying a `results` sequence as well as
for a bare sequence response, the search client maps every item to a
SearchResult whose three fields are total strings, a missing title
defaulting to "No title" and missing link or snippet to the empty
string. -/
theorem normalized_results_have_defaults (items : List RawItem)
    (stringified : String) :
    (search_with_agent
      (Except.ok (AgentContent.dict (some items) stringified))).results =
      items.map (fun item =>
        { title := item.title?.getD "No title"
        , link := item.link?.getD ""
        , snippet := item.snippet?.getD "" }) ∧
    (search_with_agent (Except.ok (AgentContent.list items))).results =
      items.map (fun item =>
        { title := item.title?.getD "No title"
        , link := item.link?.getD ""
        , snippet := item.snippet?.getD "" }) :=
  ⟨rfl, rfl⟩

/-- C7 (counterexample): the whitespace input " " trims to an empty
keyword list, yet the handler reports no validation error and still
performs one generative-provider call (over the empty keyword list), so
the claim fails on it. -/
theorem whitespace_input_skips_validation :
    parse_keywords " " = [] ∧
    (start_research " ").validation_errors = [] ∧
    (start_research " ").generate_calls = [[]] ∧
    ¬ ((start_research " ").validation_errors.length = 1 ∧
       (start_research " ").search_calls = [] ∧
       (start_research " ").generate_calls = [] ∧
       (start_research " ").news_calls = []) := by
  decide

/-- C7 (amended): when the keyword list is empty after trimming, no
search or news provider call is made; if the raw input is the empty
string, exactly one validation error is reported and no provider call at
all happens, but for non-empty (whitespace-only) raw input no validation
error is reported and content generation is still invoked once, over the
empty keyword list. -/
theorem empty_keywords_behavior (keywords_input : String)
    (h : parse_keywords keywords_input = []) :
    (start_research keywords_input).search_calls = [] ∧
    (start_research keywords_input).news_calls = [] ∧
    start_research keywords_input =
      (if keywords_input = "" then
        { validation_errors := ["Please enter at least one keyword"]
        , search_calls := [], generate_calls := [], news_calls := [] }
      else
        { validation_errors := [], search_calls := []
        , generate_calls := [[]], news_calls := [] }) := by
  by_cases hi : keywords_input = ""
  · subst hi
    exact ⟨rfl, rfl, rfl⟩
  · simp [start_research, hi, h]

/-- C7 (amended, witness): the whitespace input " " has an empty trimmed
keyword list; the handler performs no search or news call, reports no
validation error, and performs one generative call. -/
theorem empty_keywords_behavior_witness :
    parse_keywords " " = [] ∧
    ((start_research " ").search_calls = [] ∧
    (start_research " ").news_calls = [] ∧
    start_research " " =
      (if (" " : String) = "" then
        { validation_errors := ["Please enter at least one keyword"]
        , search_calls := [], generate_calls := [], news_calls := [] }
      else
        { validation_errors := [], search_calls := []
        , generate_calls := [[]], news_calls := [] })) :=
  ⟨by decide, empty_keywords_behavior " " (by decide)⟩

/-- C8: whenever the underlying agent run raises, the search client
catches the exception, reports exactly one non-fatal warning, and returns
the empty result list instead of propagating. -/
theorem search_exception_returns_empty (e : String) :
    search_with_agent (Except.error e) =
      { errors := ["Search failed: " ++ e], results := [] } :=
  rfl

/-- C9: a response content that is neither a string, nor a mapping with a
`results` key, nor a sequence — including a mapping without a `results`
key — falls to the fourth branch: one SearchResult titled
"Search Result" with empty link and the stringified content as snippet. -/
theorem search_fallback_branch (stringified : String) :
    (search_with_agent
      (Except.ok (AgentContent.dict none stringified))).results =
      [{ title := "Search Result", link := "", snippet := stringified }] ∧
    (search_with_agent (Except.ok (AgentContent.other stringified))).results =
      [{ title := "Search Result", link := "", snippet := stringified }] :=
  ⟨rfl, rfl⟩

/-- C10: if the generative run succeeds but its text contains a block
with fewer than two lines, the IndexError of the LinkedIn/Facebook loop
is caught by the blanket handler — the generator returns the placeholder
string with two empty lists and one reported error instead of propagating
— while the separate unguarded Instagram re-parse of the same text
raises (`none`). -/
theorem short_block_caught_except_instagram (content : String)
    (h : ∃ b ∈ splitBlocks content, (splitLines b).length < 2) :
    (generate_content_ideas (Except.ok content)).content_ideas =
      "Failed to generate content ideas." ∧
    (generate_content_ideas (Except.ok content)).linkedin_posts = [] ∧
    (generate_content_ideas (Except.ok content)).facebook_posts = [] ∧
    (generate_content_ideas (Except.ok content)).errors.length = 1 ∧
    instagram_tab_posts content = none := by
  obtain ⟨b, hb, hshort⟩ := h
  have hpb : parseIdeaBlock b = none := parseIdeaBlock_none_of_short b hshort
  have hmp : makePosts (splitBlocks content) = none :=
    makePosts_none_of_mem (splitBlocks content) b hb hpb
  have hip : makeInstagramPosts (splitBlocks content) = none :=
    makeInstagramPosts_none_of_mem (splitBlocks content) b hb hpb
  refine ⟨?_, ?_, ?_, ?_, ?_⟩ <;>
    simp [generate_content_ideas, instagram_tab_posts, hmp, hip]

/-- C10 (witness): the one-line text "x" makes the guarded loop return
the placeholder triple while the Instagram pass raises. -/
theorem short_block_caught_except_instagram_witness :
    (∃ b ∈ splitBlocks "x", (splitLines b).length < 2) ∧
    ((generate_content_ideas (Except.ok "x")).content_ideas =
      "Failed to generate content ideas." ∧
    (generate_content_ideas (Except.ok "x")).linkedin_posts = [] ∧
    (generate_content_ideas (Except.ok "x")).facebook_posts = [] ∧
    (generate_content_ideas (Except.ok "x")).errors.length = 1 ∧
    instagram_tab_posts "x" = none) :=
  ⟨by decide, short_block_caught_except_instagram "x" (by decide)⟩

end ResearchAgent
